import Mathlib

/-
Verification of the Argentine-market data client and analytics engine
(mercado-bursatil-argentino). The Python source is shallowly embedded:
floats are modelled by rationals (ℚ); a pandas NaN / non-finite value is
modelled by `none` in an `Option` type; timestamps are modelled by integers
(days); a raw pandas DataFrame row is a record of optional rationals; the
external yfinance provider is an explicit environment (`Provider`) mapping
requests to either a thrown exception (`Except.error`) or a raw table.
Quantities whose source computation applies an irrational operation
(square root, real exponentiation) live in ℝ; everything else is
computable.
-/

namespace MercadoMCP

/-- Enumeration TipoActivo from main.py. -/
inductive TipoActivo where
  | ACCION | CEDEAR | BONO | ETF | OPCION | FUTURO
deriving DecidableEq

/-- Enumeration PanelMercado from main.py. -/
inductive PanelMercado where
  | LIDER | GENERAL | PYMES | BONOS | LETRAS
deriving DecidableEq

/-- Enumeration Mercado from main.py. -/
inductive Mercado where
  | BYMA | MAE | MAV | ROFEX | NYSE | NASDAQ
deriving DecidableEq

/-- Enumeration Moneda from main.py. -/
inductive Moneda where
  | ARS | USD | USD_LINKED | EUR
deriving DecidableEq

/-- Enumeration EstadoRespuesta from main.py. -/
inductive EstadoRespuesta where
  | OK | ERROR
deriving DecidableEq

/-- Enumeration CodigoError from main.py. -/
inductive CodigoError where
  | DATA_001 | DATA_002 | DATA_003 | PARAM_001
deriving DecidableEq

/-- Dataclass Cotizacion from main.py (a price bar). Floats are ℚ and the
timestamp is an integer day number. -/
structure Cotizacion where
  simbolo : String
  timestamp : Int
  apertura : ℚ
  maximo : ℚ
  minimo : ℚ
  cierre : ℚ
  volumen_nominal : ℚ
  volumen_monto : ℚ := 0
  cantidad_operaciones : Int := 0
  ajustado : Bool := true
deriving DecidableEq

/-- Dataclass ActivoFinanciero from main.py. -/
structure ActivoFinanciero where
  simbolo : String
  tipo : TipoActivo
  denominacion : String
  panel : PanelMercado := PanelMercado.LIDER
  mercado : Mercado := Mercado.BYMA
  moneda : Moneda := Moneda.ARS
  codigo_isin : Option String := none
  codigo_cfi : Option String := none
  simbolo_yahoo : Option String := none
deriving DecidableEq

/-- Dataclass SolicitudHistorico from main.py; dates are integer days,
the interval is kept as its string token. -/
structure SolicitudHistorico where
  simbolo : String
  desde : Option Int := none
  hasta : Option Int := none
  intervalo : String := "1d"
  ajustado : Bool := true
deriving DecidableEq

/-- Dataclass MetadataHistorico from main.py. -/
structure MetadataHistorico where
  simbolo : String
  desde : Int
  hasta : Int
  intervalo : String
  registros : Nat
  ajustado : Bool
deriving DecidableEq

/-- Dataclass RespuestaHistorico from main.py. -/
structure RespuestaHistorico where
  estado : EstadoRespuesta
  datos : List Cotizacion := []
  metadata : Option MetadataHistorico := none
  mensaje : Option String := none
  codigo_error : Option CodigoError := none
deriving DecidableEq

/-- Model of Python str.endswith, via character lists. -/
def endsWithStr (s suffix : String) : Bool :=
  suffix.toList.isSuffixOf s.toList

/-- Model of Python str.startswith, via character lists. -/
def startsWithStr (s pre : String) : Bool :=
  pre.toList.isPrefixOf s.toList

/-- Model of the Python substring test (needle in haystack), via character
lists. -/
def containsStr (needle haystack : String) : Bool :=
  decide (needle.toList <:+: haystack.toList)

/-- SIMBOLOS_MAPPING from main.py, as an association list (keys unique). -/
def SIMBOLOS_MAPPING : List (String × String) :=
  [ ("GGAL", "GGAL.BA"), ("PAMP", "PAMP.BA"), ("YPF", "YPFD.BA"),
    ("YPFD", "YPFD.BA"), ("TXAR", "TXAR.BA"), ("BYMA", "BYMA.BA"),
    ("BBAR", "BBAR.BA"), ("CEPU", "CEPU.BA"), ("TRAN", "TRAN.BA"),
    ("TGNO4", "TGNO4.BA"), ("TGSU2", "TGSU2.BA"), ("LOMA", "LOMA.BA"),
    ("BMA", "BMA.BA"), ("SUPV", "SUPV.BA"), ("CRES", "CRES.BA"),
    ("ALUA", "ALUA.BA"), ("COME", "COME.BA"), ("MIRG", "MIRG.BA"),
    ("HARG", "HARG.BA"), ("VALO", "VALO.BA"),
    ("GGAL.ADR", "GGAL"), ("YPF.ADR", "YPF"), ("BMA.ADR", "BMA"),
    ("SUPV.ADR", "SUPV"), ("LOMA.ADR", "LOMA"), ("BBAR.ADR", "BBAR"),
    ("PAM.ADR", "PAM"), ("TEO.ADR", "TEO"), ("TGS.ADR", "TGS"),
    ("ARGT", "ARGT"),
    ("MERVAL", "^MERV") ]

/-- ClienteYFinanceMCP._get_yahoo_symbol from main.py: exact lookup in the
static mapping, else append .BA unless the symbol already ends in .BA or
.ADR, else return it unchanged. -/
def get_yahoo_symbol (simbolo : String) : String :=
  match SIMBOLOS_MAPPING.lookup simbolo with
  | some y => y
  | none =>
    if ¬ endsWithStr simbolo ".BA" ∧ ¬ endsWithStr simbolo ".ADR" then
      simbolo ++ ".BA"
    else
      simbolo

/-- Raw row of a yfinance history DataFrame: the index timestamp plus the
Open/High/Low/Close/Volume columns, each possibly NaN or absent (`none`). -/
structure RawRow where
  ts : Int
  openC : Option ℚ
  highC : Option ℚ
  lowC : Option ℚ
  closeC : Option ℚ
  volumeC : Option ℚ
deriving DecidableEq

/-- Conversion of one raw DataFrame row (the body of the loop inside
_convert_yf_history_to_cotizaciones): `none`, meaning the row is skipped,
exactly when an OHLC field is NaN; otherwise the emitted bar with
adjusted true and volume defaulting to 0. -/
def rowToCotizacion (simbolo : String) (r : RawRow) : Option Cotizacion :=
  match r.openC, r.highC, r.lowC, r.closeC with
  | some o, some h, some l, some c =>
    some { simbolo := simbolo, timestamp := r.ts, apertura := o,
           maximo := h, minimo := l, cierre := c,
           volumen_nominal := r.volumeC.getD 0, ajustado := true }
  | _, _, _, _ => none

/-- ClienteYFinanceMCP._convert_yf_history_to_cotizaciones from main.py.
The Python early return on an empty DataFrame coincides with iterating an
empty row list. -/
def convert_yf_history_to_cotizaciones (df : List RawRow) (simbolo : String) :
    List Cotizacion :=
  df.filterMap (rowToCotizacion simbolo)

/-- Environment modelling the yfinance collaborator and the clock.
historyRange models ticker.history(start, end, interval, auto_adjust);
historyPeriod models ticker.history(period); infoFor models ticker.info.
An `Except.error` models a thrown Python exception. -/
structure Provider where
  now : Int
  historyRange : String → Int → Int → String → Bool → Except String (List RawRow)
  historyPeriod : String → String → Except String (List RawRow)
  infoFor : String → Except String (List (String × String))

/-- Decidable equality for provider call results. -/
instance instDecEqExceptRes {ε α : Type} [DecidableEq ε] [DecidableEq α] :
    DecidableEq (Except ε α) := fun a b =>
  match a, b with
  | Except.error e1, Except.error e2 =>
    if h : e1 = e2 then isTrue (by rw [h]) else isFalse (by simp [h])
  | Except.ok x, Except.ok y =>
    if h : x = y then isTrue (by rw [h]) else isFalse (by simp [h])
  | Except.error e1, Except.ok x => isFalse (by simp)
  | Except.ok x, Except.error e1 => isFalse (by simp)

/-- ClienteYFinanceMCP.obtener_historico from main.py. The outer
try/except only guards code that cannot raise in this model, so it is not
represented; the inner try/except around ticker.history is the
`Except.error` branch. -/
def obtener_historico (p : Provider) (solicitud : SolicitudHistorico) :
    RespuestaHistorico :=
  let simbolo_yahoo := get_yahoo_symbol solicitud.simbolo
  let desde := solicitud.desde.getD (p.now - 365)
  let hasta := solicitud.hasta.getD p.now
  let intervalo := solicitud.intervalo
  match p.historyRange simbolo_yahoo desde hasta intervalo solicitud.ajustado with
  | Except.error ticker_error =>
    { estado := EstadoRespuesta.ERROR,
      mensaje := some ("Error al obtener datos de Yahoo Finance para el símbolo "
        ++ simbolo_yahoo ++ ": " ++ ticker_error),
      codigo_error := some CodigoError.DATA_003 }
  | Except.ok df =>
    if df.isEmpty then
      { estado := EstadoRespuesta.ERROR,
        mensaje := some ("No se encontraron datos para el símbolo "
          ++ solicitud.simbolo ++ " (" ++ simbolo_yahoo
          ++ ") en el período solicitado"),
        codigo_error := some CodigoError.DATA_002 }
    else
      let cotizaciones := convert_yf_history_to_cotizaciones df solicitud.simbolo
      match cotizaciones with
      | [] =>
        { estado := EstadoRespuesta.ERROR,
          mensaje := some ("Los datos obtenidos para " ++ solicitud.simbolo
            ++ " (" ++ simbolo_yahoo ++ ") no pudieron ser procesados"),
          codigo_error := some CodigoError.DATA_003 }
      | c0 :: resto =>
        let metadata : MetadataHistorico :=
          { simbolo := solicitud.simbolo,
            desde := c0.timestamp,
            hasta := (resto.getLastD c0).timestamp,
            intervalo := intervalo,
            registros := (c0 :: resto).length,
            ajustado := solicitud.ajustado }
        { estado := EstadoRespuesta.OK,
          datos := c0 :: resto,
          metadata := some metadata }

/-- ClienteYFinanceMCP.obtener_ultima_cotizacion from main.py: resolve the
symbol, apply the inline YPF override, try periods 1d, 5d, 1mo on raw
(structural) emptiness inside one try block, then normalize the chosen
frame and return its head. Every failure path returns `none`. -/
def obtener_ultima_cotizacion (p : Provider) (simbolo : String) :
    Option Cotizacion :=
  let simbolo_yahoo := get_yahoo_symbol simbolo
  let simbolo_yahoo :=
    if simbolo = "YPF" ∧ simbolo_yahoo = "YPF.BA" then "YPFD.BA"
    else simbolo_yahoo
  let dfE : Except String (List RawRow) := do
    let df ← p.historyPeriod simbolo_yahoo "1d"
    if df.isEmpty then
      let df5 ← p.historyPeriod simbolo_yahoo "5d"
      if df5.isEmpty then
        p.historyPeriod simbolo_yahoo "1mo"
      else
        pure df5
    else
      pure df
  match dfE with
  | Except.error _ => none
  | Except.ok df =>
    if df.isEmpty then none
    else
      (convert_yf_history_to_cotizaciones df simbolo).head?

/-- Variant of obtener_ultima_cotizacion with the inline special-case
override for YPF removed, used to state the dead-code claim. -/
def obtener_ultima_cotizacion_sin_override (p : Provider) (simbolo : String) :
    Option Cotizacion :=
  let simbolo_yahoo := get_yahoo_symbol simbolo
  let dfE : Except String (List RawRow) := do
    let df ← p.historyPeriod simbolo_yahoo "1d"
    if df.isEmpty then
      let df5 ← p.historyPeriod simbolo_yahoo "5d"
      if df5.isEmpty then
        p.historyPeriod simbolo_yahoo "1mo"
      else
        pure df5
    else
      pure df
  match dfE with
  | Except.error _ => none
  | Except.ok df =>
    if df.isEmpty then none
    else
      (convert_yf_history_to_cotizaciones df simbolo).head?

/-- ClienteYFinanceMCP.obtener_cotizaciones_multiples from main.py: a dict
built by one obtener_ultima_cotizacion call per symbol, modelled as an
association list in input order. The per-symbol try/except is vacuous here
because obtener_ultima_cotizacion is total in this model. -/
def obtener_cotizaciones_multiples (p : Provider) (simbolos : List String) :
    List (String × Option Cotizacion) :=
  simbolos.map (fun simbolo => (simbolo, obtener_ultima_cotizacion p simbolo))

/-- Denomination preference order from obtener_activo: a non-empty
longName, else a non-empty shortName, else the domain symbol; Python
truthiness of a string is non-emptiness. -/
def denominacionDe (info : List (String × String)) (simbolo : String) : String :=
  if info.isEmpty then simbolo
  else
    match info.lookup "longName" with
    | some ln =>
      if ln ≠ "" then ln
      else
        match info.lookup "shortName" with
        | some sn => if sn ≠ "" then sn else simbolo
        | none => simbolo
    | none =>
      match info.lookup "shortName" with
      | some sn => if sn ≠ "" then sn else simbolo
      | none => simbolo

/-- ClienteYFinanceMCP.obtener_activo from main.py, with the instance
cache threaded explicitly: returns the result together with the updated
cache. All exception paths collapse to `none`. -/
def obtener_activo (p : Provider)
    (cache : List (String × ActivoFinanciero)) (simbolo : String) :
    Option ActivoFinanciero × List (String × ActivoFinanciero) :=
  match cache.lookup simbolo with
  | some activo => (some activo, cache)
  | none =>
    let simbolo_yahoo := get_yahoo_symbol simbolo
    let infoStep : Option (List (String × String)) :=
      match p.infoFor simbolo_yahoo with
      | Except.ok info =>
        if info.isEmpty then
          match p.historyPeriod simbolo_yahoo "1d" with
          | Except.error _ => none
          | Except.ok df =>
            if df.isEmpty then none
            else some [("shortName", simbolo_yahoo)]
        else some info
      | Except.error _ =>
        match p.historyPeriod simbolo_yahoo "1d" with
        | Except.error _ => none
        | Except.ok df =>
          if df.isEmpty then none
          else some [("shortName", simbolo_yahoo)]
    match infoStep with
    | none => (none, cache)
    | some info =>
      let tipo :=
        if simbolo_yahoo = "^MERV" then TipoActivo.BONO
        else if simbolo_yahoo = "ARGT" then TipoActivo.ETF
        else if endsWithStr simbolo ".ADR" then TipoActivo.CEDEAR
        else TipoActivo.ACCION
      let mercado :=
        if endsWithStr simbolo_yahoo ".BA" then Mercado.BYMA
        else if ¬ (simbolo_yahoo.toList.contains '.')
            ∨ startsWithStr simbolo_yahoo "^" then Mercado.NYSE
        else Mercado.BYMA
      let moneda := if mercado ≠ Mercado.BYMA then Moneda.USD else Moneda.ARS
      let activo : ActivoFinanciero :=
        { simbolo := simbolo, tipo := tipo,
          denominacion := denominacionDe info simbolo,
          panel := PanelMercado.LIDER, mercado := mercado, moneda := moneda,
          simbolo_yahoo := some simbolo_yahoo }
      (some activo, (simbolo, activo) :: cache)

/-- Row of the DataFrame built by
AnalizadorMercadoArgentino.obtener_dataframe_historico (index fecha plus
the simbolo/apertura/maximo/minimo/cierre/volumen columns). -/
structure FilaDF where
  fecha : Int
  simbolo : String
  apertura : ℚ
  maximo : ℚ
  minimo : ℚ
  cierre : ℚ
  volumen : ℚ
deriving DecidableEq

/-- AnalizadorMercadoArgentino.obtener_dataframe_historico from
utilidades_mcp.py: fetch via obtener_historico and return the rows, or
`none` on a non-OK estado or empty data. -/
def obtener_dataframe_historico (p : Provider) (simbolo : String)
    (desde : Int) (hasta : Option Int) : Option (List FilaDF) :=
  let h := hasta.getD p.now
  let respuesta := obtener_historico p
    { simbolo := simbolo, desde := some desde, hasta := some h,
      intervalo := "1d", ajustado := true }
  if respuesta.estado ≠ EstadoRespuesta.OK ∨ respuesta.datos.isEmpty then none
  else
    some (respuesta.datos.map (fun c =>
      { fecha := c.timestamp, simbolo := c.simbolo, apertura := c.apertura,
        maximo := c.maximo, minimo := c.minimo, cierre := c.cierre,
        volumen := c.volumen_nominal }))

/-- Arithmetic mean of a list of rationals (pandas mean over a NaN-free
column). For the empty list ℚ division yields 0; the source only reaches
that case where pandas would produce NaN, and no claim depends on it. -/
def mean (xs : List ℚ) : ℚ :=
  xs.sum / (xs.length : ℚ)

/-- Sum of centered products, the shared numerator of sample covariance,
sample variance and the Pearson correlation. -/
def centeredDot (x y : List ℚ) : ℚ :=
  (List.zipWith (fun a b => (a - mean x) * (b - mean y)) x y).sum

/-- Sample variance with ddof = 1 (pandas Series.var default). Only
meaningful for 2 ≤ length, where pandas is finite; below that pandas
yields NaN while ℚ division yields 0 or a negative-denominator value. -/
def sampleVar (xs : List ℚ) : ℚ :=
  centeredDot xs xs / ((xs.length : ℚ) - 1)

/-- Sample covariance with ddof = 1 (pandas Series.cov default), for two
columns of equal length. -/
def sampleCov (x y : List ℚ) : ℚ :=
  centeredDot x y / ((x.length : ℚ) - 1)

/-- Day-over-day percentage changes of a NaN-free close column after
dropping the leading NaN: models Series.pct_change().dropna() on the
cierre column. A zero previous close, where pandas produces a non-finite
value, is outside the modelled domain (ℚ division yields 0 there). -/
def pctChangesDropna (xs : List ℚ) : List ℚ :=
  List.zipWith (fun prev cur => (cur - prev) / prev) xs xs.tail

/-- Sample standard deviation as pandas Series.std (ddof = 1, skipna)
computes it over the already-NaN-filtered observations: NaN (`none`) for
fewer than two observations, otherwise the square root of the sample
variance. -/
noncomputable def stdSample (xs : List ℚ) : Option ℝ :=
  if 2 ≤ xs.length then some (Real.sqrt (sampleVar xs)) else none

/-- AnalizadorMercadoArgentino.calcular_rendimiento from utilidades_mcp.py.
Result triple (rendimiento_total, rendimiento_anualizado, volatilidad);
the total return is exact in ℚ, the annualized return uses real
exponentiation, and the volatility is `none` where pandas std yields NaN.
The rendimientos_diarios series is pct_change * 100 whose only NaN is the
leading one, which std skips. -/
noncomputable def calcular_rendimiento (df : Option (List FilaDF)) :
    ℚ × ℝ × Option ℝ :=
  match df with
  | none => (0, 0, some 0)
  | some [] => (0, 0, some 0)
  | some (f0 :: resto) =>
    let primer_precio := f0.cierre
    let ultimo_precio := (resto.getLastD f0).cierre
    let rendimiento_total : ℚ :=
      (ultimo_precio - primer_precio) / primer_precio * 100
    let dias : Int := (resto.getLastD f0).fecha - f0.fecha
    let rendimiento_anualizado : ℝ :=
      if 0 < dias then
        ((1 + (rendimiento_total : ℝ) / 100) ^ ((365 : ℝ) / (dias : ℝ)) - 1)
          * 100
      else 0
    let rendimientos_diarios :=
      (pctChangesDropna ((f0 :: resto).map FilaDF.cierre)).map (fun r => r * 100)
    (rendimiento_total, rendimiento_anualizado, stdSample rendimientos_diarios)

/-- AnalizadorMercadoArgentino.calcular_beta from utilidades_mcp.py:
fetch both series, intersect their date indexes (in the order of the
asset's index, as pandas Index.intersection preserves it for these
already-sorted unique indexes), require at least 30 common dates, align
both close columns to the common dates, take daily returns, and divide
sample covariance by the benchmark sample variance unless that variance
is exactly zero. -/
def calcular_beta (p : Provider) (simbolo : String) (indice : String)
    (desde : Option Int) (hasta : Option Int) : Option ℚ :=
  let d := desde.getD (p.now - 365)
  let h := hasta.getD p.now
  match obtener_dataframe_historico p simbolo d (some h),
        obtener_dataframe_historico p indice d (some h) with
  | some df_activo, some df_indice =>
    let fechas_comunes := (df_activo.map FilaDF.fecha).filter
      (fun f => (df_indice.map FilaDF.fecha).contains f)
    if fechas_comunes.length < 30 then none
    else
      let cierres_activo := fechas_comunes.filterMap
        (fun f => (df_activo.find? (fun r => r.fecha == f)).map FilaDF.cierre)
      let cierres_indice := fechas_comunes.filterMap
        (fun f => (df_indice.find? (fun r => r.fecha == f)).map FilaDF.cierre)
      let rendimientos_activo := pctChangesDropna cierres_activo
      let rendimientos_indice := pctChangesDropna cierres_indice
      let covarianza := sampleCov rendimientos_activo rendimientos_indice
      let varianza := sampleVar rendimientos_indice
      if varianza = 0 then none
      else some (covarianza / varianza)
  | _, _ => none

/-- Day-over-day fractional changes of one column of the combined frame,
as pandas pct_change with its default fill_method of forward fill
computes them: the first argument is the last forward-filled value seen
so far. A change is NaN (`none`) exactly when no prior value exists; a
zero previous value, non-finite in pandas, is outside the modelled
domain. -/
def pctChangePad : Option ℚ → List (Option ℚ) → List (Option ℚ)
  | _, [] => []
  | prev, v :: rest =>
    let filled := match v with
      | some a => some a
      | none => prev
    let change : Option ℚ :=
      match prev, filled with
      | some a, some b => if a = 0 then none else some ((b - a) / a)
      | _, _ => none
    change :: pctChangePad filled rest

/-- Pearson correlation of two equal-length observation columns as pandas
DataFrame.corr computes an entry: NaN (`none`) when either column has zero
centered sum of squares (constant column or fewer than two observations),
otherwise the centered dot product over the square root of the product of
the centered sums of squares. -/
noncomputable def corrEntry (x y : List ℚ) : Option ℝ :=
  if centeredDot x x = 0 ∨ centeredDot y y = 0 then none
  else
    some ((centeredDot x y : ℝ)
      / Real.sqrt ((centeredDot x x : ℝ) * (centeredDot y y : ℝ)))

/-- Correlation matrix result, kept in its informative normal form: the
aligned daily-return column of every contributing symbol (the rows that
survive dropna). The matrix entries are derived from these columns by
MatrizCorrelacion.entrada. -/
structure MatrizCorrelacion where
  columnas : List (String × List ℚ)
deriving DecidableEq

/-- Column symbols of the correlation matrix, in combined-frame order. -/
def MatrizCorrelacion.simbolos (m : MatrizCorrelacion) : List String :=
  m.columnas.map Prod.fst

/-- Entry of the correlation matrix for a pair of symbols: the Pearson
correlation of their aligned return columns (an unknown symbol reads as
the empty column, giving NaN). -/
noncomputable def MatrizCorrelacion.entrada (m : MatrizCorrelacion)
    (s t : String) : Option ℝ :=
  corrEntry ((m.columnas.lookup s).getD []) ((m.columnas.lookup t).getD [])

/-- AnalizadorMercadoArgentino.calcular_matriz_correlacion from
utilidades_mcp.py. The combined frame starts empty, so its index is
adopted from the first successfully fetched symbol (pandas column
assignment to an empty frame), and every later column is aligned to that
index with NaN for missing dates. Daily returns use pct_change with its
default forward fill, dropna keeps the rows where every column has a
defined return, and the matrix is the pairwise Pearson correlation of
the resulting columns. -/
def calcular_matriz_correlacion (p : Provider)
    (simbolos : List String) (desde : Int) (hasta : Option Int) :
    Option MatrizCorrelacion :=
  let columnas := simbolos.filterMap (fun s =>
    (obtener_dataframe_historico p s desde hasta).map (fun df => (s, df)))
  match columnas with
  | [] => none
  | (s0, df0) :: resto =>
    let fechas := df0.map FilaDF.fecha
    let colCruda : List FilaDF → List (Option ℚ) := fun df =>
      fechas.map (fun f => (df.find? (fun r => r.fecha == f)).map FilaDF.cierre)
    let colCambios : List FilaDF → List (Option ℚ) := fun df =>
      pctChangePad none (colCruda df)
    let todas := ((s0, df0) :: resto).map (fun sd => colCambios sd.2)
    let filasValidas : List Nat := (List.range fechas.length).filter
      (fun i => todas.all (fun col => (col.getD i none).isSome))
    some { columnas := ((s0, df0) :: resto).map (fun sd =>
      (sd.1, filasValidas.filterMap (fun i => (colCambios sd.2).getD i none))) }

/-- Validity test of one raw row: every OHLC field present. -/
def rowValida (r : RawRow) : Bool :=
  r.openC.isSome && r.highC.isSome && r.lowC.isSome && r.closeC.isSome

/-- Bar emitted for a valid raw row (the fields rowToCotizacion
constructs, with getD reading the present OHLC values). -/
def barDeFila (s : String) (r : RawRow) : Cotizacion :=
  { simbolo := s, timestamp := r.ts, apertura := r.openC.getD 0,
    maximo := r.highC.getD 0, minimo := r.lowC.getD 0,
    cierre := r.closeC.getD 0, volumen_nominal := r.volumeC.getD 0,
    ajustado := true }

/-- Date intersection as calcular_beta builds it: the dates of the asset
frame that also occur in the benchmark frame, in asset-frame order. -/
def fechasComunes (dfA dfI : List FilaDF) : List Int :=
  (dfA.map FilaDF.fecha).filter (fun f => (dfI.map FilaDF.fecha).contains f)

/-- Close column of a frame aligned to a list of dates (pandas loc on the
common dates). -/
def cierresAlineados (df : List FilaDF) (fechas : List Int) : List ℚ :=
  fechas.filterMap (fun f => (df.find? (fun r => r.fecha == f)).map FilaDF.cierre)

/-
Concrete fixtures used by witnesses and counterexamples.
-/

/-- Raw row with all fields present and a constant OHLC price. -/
def filaBuena (t : Int) (c : ℚ) : RawRow :=
  { ts := t, openC := some c, highC := some c, lowC := some c,
    closeC := some c, volumeC := some 10 }

/-- Raw row whose Close is NaN, so normalization must skip it. -/
def filaSinCierre (t : Int) : RawRow :=
  { ts := t, openC := some 1, highC := some 1, lowC := some 1,
    closeC := none, volumeC := some 10 }

/-- Raw row without a Volume value, to exercise the volume default. -/
def filaSinVolumen (t : Int) (c : ℚ) : RawRow :=
  { ts := t, openC := some c, highC := some c, lowC := some c,
    closeC := some c, volumeC := none }

/-- DataFrame row for a single-bar analytics series. -/
def filaDF1 : FilaDF :=
  { fecha := 0, simbolo := "A", apertura := 100, maximo := 100,
    minimo := 100, cierre := 100, volumen := 0 }

/-- Provider whose every call throws. -/
def provTodoFalla : Provider :=
  { now := 1000,
    historyRange := fun _ _ _ _ _ => Except.error "boom",
    historyPeriod := fun _ _ => Except.error "boom",
    infoFor := fun _ => Except.error "boom" }

/-- Provider for the fetchLatest counterexample: the 1-day window is raw
non-empty but normalizes to nothing (its only row lacks a Close), while
the 5-day window holds one good bar. -/
def provVentana1dInvalida : Provider :=
  { now := 1000,
    historyRange := fun _ _ _ _ _ => Except.error "no",
    historyPeriod := fun sy period =>
      if sy = "GGAL.BA" ∧ period = "1d" then Except.ok [filaSinCierre 1]
      else if sy = "GGAL.BA" ∧ period = "5d" then Except.ok [filaBuena 2 100]
      else Except.ok [],
    infoFor := fun _ => Except.error "no" }

/-- Provider for the fetchLatest witness: the 1-day window is raw empty
and the 5-day window holds one good bar. -/
def provVentana5d : Provider :=
  { now := 1000,
    historyRange := fun _ _ _ _ _ => Except.error "no",
    historyPeriod := fun sy period =>
      if sy = "GGAL.BA" ∧ period = "5d" then Except.ok [filaBuena 2 100]
      else Except.ok [],
    infoFor := fun _ => Except.error "no" }

/-- Provider whose range call yields rows that all fail normalization. -/
def provFilasInvalidas : Provider :=
  { now := 1000,
    historyRange := fun _ _ _ _ _ => Except.ok [filaSinCierre 1],
    historyPeriod := fun _ _ => Except.ok [],
    infoFor := fun _ => Except.error "no" }

/-- Provider for the batch witness: symbol A (resolved A.BA) always
throws, symbol B (resolved B.BA) has one good bar in its 1-day window. -/
def provLoteAB : Provider :=
  { now := 1000,
    historyRange := fun _ _ _ _ _ => Except.error "no",
    historyPeriod := fun sy _ =>
      if sy = "B.BA" then Except.ok [filaBuena 3 50]
      else Except.error "boom",
    infoFor := fun _ => Except.error "no" }

/-- Frame rows on consecutive dates with the given closes. -/
def filasDesde (inicio : Int) : List ℚ → List RawRow
  | [] => []
  | c :: resto => filaBuena inicio c :: filasDesde (inicio + 1) resto

/-- Provider for the beta witness: both GGAL.BA and the benchmark ^MERV
have two bars on the same two dates (far fewer than 30). -/
def provBetaCorto : Provider :=
  { now := 1000,
    historyRange := fun sy _ _ _ _ =>
      if sy = "GGAL.BA" then Except.ok (filasDesde 0 [100, 110])
      else if sy = "^MERV" then Except.ok (filasDesde 0 [200, 210])
      else Except.ok [],
    historyPeriod := fun _ _ => Except.ok [],
    infoFor := fun _ => Except.error "no" }

/-- Provider for the correlation counterexample: one symbol with three
bars at a constant close, whose return column is constant. -/
def provCorrConstante : Provider :=
  { now := 1000,
    historyRange := fun sy _ _ _ _ =>
      if sy = "A.BA" then Except.ok (filasDesde 0 [100, 100, 100])
      else Except.ok [],
    historyPeriod := fun _ _ => Except.ok [],
    infoFor := fun _ => Except.error "no" }

/-- Provider for the correlation witness: one symbol with three bars and
non-constant returns. -/
def provCorrVariable : Provider :=
  { now := 1000,
    historyRange := fun sy _ _ _ _ =>
      if sy = "A.BA" then Except.ok (filasDesde 0 [100, 110, 132])
      else Except.ok [],
    historyPeriod := fun _ _ => Except.ok [],
    infoFor := fun _ => Except.error "no" }

/-- Provider for the instrument witness: metadata available for ^MERV. -/
def provActivoMerval : Provider :=
  { now := 1000,
    historyRange := fun _ _ _ _ _ => Except.error "no",
    historyPeriod := fun _ _ => Except.ok [],
    infoFor := fun sy =>
      if sy = "^MERV" then Except.ok [("longName", "Indice Merval")]
      else Except.error "no" }

/-- Frame that provBetaCorto yields for GGAL. -/
def dfBetaGGAL : List FilaDF :=
  [ { fecha := 0, simbolo := "GGAL", apertura := 100, maximo := 100,
      minimo := 100, cierre := 100, volumen := 10 },
    { fecha := 1, simbolo := "GGAL", apertura := 110, maximo := 110,
      minimo := 110, cierre := 110, volumen := 10 } ]

/-- Frame that provBetaCorto yields for MERVAL. -/
def dfBetaMERV : List FilaDF :=
  [ { fecha := 0, simbolo := "MERVAL", apertura := 200, maximo := 200,
      minimo := 200, cierre := 200, volumen := 10 },
    { fecha := 1, simbolo := "MERVAL", apertura := 210, maximo := 210,
      minimo := 210, cierre := 210, volumen := 10 } ]

/-- Correlation matrix that provCorrVariable yields for the single symbol
A: one aligned return column with the two day-over-day changes. -/
def mCorrVariable : MatrizCorrelacion :=
  { columnas := [("A", [1/10, 1/5])] }

/-- Instrument that provActivoMerval yields for MERVAL. -/
def activoMerval : ActivoFinanciero :=
  { simbolo := "MERVAL", tipo := TipoActivo.BONO,
    denominacion := "Indice Merval", panel := PanelMercado.LIDER,
    mercado := Mercado.NYSE, moneda := Moneda.USD,
    simbolo_yahoo := some "^MERV" }

/-
Theorems.
-/

/-- C8: the symbol resolver is total and follows the three rules — a
symbol in the static mapping resolves to its table entry; a symbol absent
from the table with neither the .BA nor the .ADR suffix resolves to
itself with .BA appended (in particular UNKNOWN123 resolves to
UNKNOWN123.BA, not an error); any other symbol resolves to itself. -/
theorem resolucionSimboloTotal :
    (∀ s y, SIMBOLOS_MAPPING.lookup s = some y → get_yahoo_symbol s = y)
    ∧ (∀ s, SIMBOLOS_MAPPING.lookup s = none →
        endsWithStr s ".BA" = false → endsWithStr s ".ADR" = false →
        get_yahoo_symbol s = s ++ ".BA")
    ∧ (∀ s, SIMBOLOS_MAPPING.lookup s = none →
        (endsWithStr s ".BA" = true ∨ endsWithStr s ".ADR" = true) →
        get_yahoo_symbol s = s)
    ∧ get_yahoo_symbol "UNKNOWN123" = "UNKNOWN123.BA" := by
  refine ⟨?_, ?_, ?_, by decide⟩
  · intro s y h
    simp [get_yahoo_symbol, h]
  · intro s h h1 h2
    simp [get_yahoo_symbol, h, h1, h2]
  · intro s h h12
    rcases h12 with h1 | h1 <;> simp [get_yahoo_symbol, h, h1]

/-- Witness for C8: the mapped symbol MERVAL resolves to its table
entry. -/
theorem resolucionSimboloTotal_witness :
    SIMBOLOS_MAPPING.lookup "MERVAL" = some "^MERV"
    ∧ get_yahoo_symbol "MERVAL" = "^MERV" :=
  ⟨by decide, resolucionSimboloTotal.1 "MERVAL" "^MERV" (by decide)⟩

/-- Row conversion emits exactly on validity: a valid row yields its bar,
an invalid row is skipped. -/
theorem rowToCotizacion_eq (s : String) (r : RawRow) :
    rowToCotizacion s r = if rowValida r then some (barDeFila s r) else none := by
  rcases r with ⟨t, o, h, l, c, v⟩
  rcases o with _ | o <;> rcases h with _ | h <;> rcases l with _ | l <;>
    rcases c with _ | c <;>
      simp [rowToCotizacion, rowValida, barDeFila]

/-- C3: the normalizer emits no bar for a row missing an OHLC field and
exactly one bar (with adjusted true and volume defaulting to 0) for every
other row, preserving order — it equals mapping the bar constructor over
the valid-row filter — so N rows of which M are invalid give N − M bars,
and empty input gives empty output. -/
theorem normalizadorFiltraFilas :
    ∀ (df : List RawRow) (s : String),
      convert_yf_history_to_cotizaciones df s
          = (df.filter rowValida).map (barDeFila s)
      ∧ (convert_yf_history_to_cotizaciones df s).length
          = df.length - df.countP (fun r => ! rowValida r)
      ∧ (∀ b ∈ convert_yf_history_to_cotizaciones df s, b.ajustado = true)
      ∧ convert_yf_history_to_cotizaciones [] s = [] := by
  intro df s
  have hform : convert_yf_history_to_cotizaciones df s
      = (df.filter rowValida).map (barDeFila s) := by
    induction df with
    | nil => rfl
    | cons r t ih =>
      by_cases h : rowValida r <;>
        simp [convert_yf_history_to_cotizaciones, List.filterMap_cons,
          rowToCotizacion_eq, h, List.filter_cons] at ih ⊢ <;>
        exact ih
  refine ⟨hform, ?_, ?_, rfl⟩
  · rw [hform, List.length_map, ← List.countP_eq_length_filter]
    have key : ∀ (l : List RawRow),
        l.countP rowValida + l.countP (fun r => ! rowValida r) = l.length := by
      intro l
      induction l with
      | nil => rfl
      | cons r t ih =>
        by_cases h : rowValida r <;> simp [List.countP_cons, h] <;> omega
    have h := key df
    omega
  · intro b hb
    rw [hform] at hb
    rcases List.mem_map.mp hb with ⟨r, _, hr⟩
    rw [← hr]
    rfl

/-- Witness for C3: three rows of which one lacks a Close give two bars,
in order, the second with volume defaulted to 0, both adjusted. -/
theorem normalizadorFiltraFilas_witness :
    convert_yf_history_to_cotizaciones
        [filaBuena 1 100, filaSinCierre 2, filaSinVolumen 3 50] "A"
      = ([filaBuena 1 100, filaSinCierre 2, filaSinVolumen 3 50].filter
          rowValida).map (barDeFila "A")
    ∧ (convert_yf_history_to_cotizaciones
        [filaBuena 1 100, filaSinCierre 2, filaSinVolumen 3 50] "A").length
      = 3 - 1 := by
  refine ⟨(normalizadorFiltraFilas _ "A").1, ?_⟩
  rw [(normalizadorFiltraFilas
    [filaBuena 1 100, filaSinCierre 2, filaSinVolumen 3 50] "A").2.1]
  decide

/-- Inline override rewriting YPF.BA to YPFD.BA never changes the
resolved symbol, because the mapping already sends YPF to YPFD.BA. -/
theorem simboloOverride_eq (s : String) :
    (if s = "YPF" ∧ get_yahoo_symbol s = "YPF.BA" then "YPFD.BA"
     else get_yahoo_symbol s) = get_yahoo_symbol s := by
  by_cases h : s = "YPF"
  · subst h; decide
  · simp [h]

/-- C10: the YPF special case in obtener_ultima_cotizacion is dead code —
the function with the override branch is extensionally equal to the same
function without it, because the mapping already resolves YPF to
YPFD.BA. -/
theorem overrideYPFEsCodigoMuerto :
    ∀ (p : Provider) (s : String),
      obtener_ultima_cotizacion p s
        = obtener_ultima_cotizacion_sin_override p s := by
  intro p s
  simp only [obtener_ultima_cotizacion, obtener_ultima_cotizacion_sin_override,
    simboloOverride_eq]

/-- Association lookup on a list of pairs built by mapping a function
over the keys returns the function value at any listed key. -/
theorem lookup_map_pair {α : Type} (f : String → α) (l : List String)
    (s : String) (hs : s ∈ l) :
    (l.map (fun x => (x, f x))).lookup s = some (f s) := by
  induction l with
  | nil => cases hs
  | cons a t ih =>
    by_cases h : s = a
    · subst h; simp [List.lookup]
    · have hba : (s == a) = false := beq_eq_false_iff_ne.mpr h
      rcases List.mem_cons.mp hs with h1 | h1
      · exact absurd h1 h
      · simp only [List.map_cons, List.lookup, hba]
        exact ih h1

/-- C5: the batch operation calls fetchLatest once per input symbol in
input order and never fails; each symbol's entry equals its own
fetchLatest result, so one symbol's failure cannot abort or affect any
other symbol's entry. -/
theorem loteAislaFallos :
    ∀ (p : Provider) (simbolos : List String),
      ((obtener_cotizaciones_multiples p simbolos).map Prod.fst = simbolos)
      ∧ ∀ s ∈ simbolos,
          (obtener_cotizaciones_multiples p simbolos).lookup s
            = some (obtener_ultima_cotizacion p s) := by
  intro p simbolos
  constructor
  · simp [obtener_cotizaciones_multiples, Function.comp_def]
  · intro s hs
    exact lookup_map_pair (obtener_ultima_cotizacion p) simbolos s hs

/-- Witness for C5: with symbol A failing and symbol B succeeding, the
batch maps A to absent and B to its bar, and B's entry is exactly B's own
fetchLatest result. -/
theorem loteAislaFallos_witness :
    obtener_cotizaciones_multiples provLoteAB ["A", "B"]
        = [("A", none), ("B", obtener_ultima_cotizacion provLoteAB "B")]
    ∧ obtener_ultima_cotizacion provLoteAB "A" = none
    ∧ (obtener_ultima_cotizacion provLoteAB "B").isSome = true
    ∧ (obtener_cotizaciones_multiples provLoteAB ["A", "B"]).lookup "B"
        = some (obtener_ultima_cotizacion provLoteAB "B") :=
  ⟨by decide, by decide, by decide,
    (loteAislaFallos provLoteAB ["A", "B"]).2 "B" (by decide)⟩

/-- Counterexample to C1 as stated: when the 1-day window is raw
non-empty but normalizes to zero bars while the 5-day window holds one
good bar, fetchLatest returns absent instead of the 5-day bar — window
escalation is keyed on raw structural emptiness, not on yield after
normalization. -/
theorem ultimaCotizacionNoEscalaTrasNormalizar :
    obtener_ultima_cotizacion provVentana1dInvalida "GGAL" = none
    ∧ provVentana1dInvalida.historyPeriod "GGAL.BA" "1d"
        = Except.ok [filaSinCierre 1]
    ∧ convert_yf_history_to_cotizaciones [filaSinCierre 1] "GGAL" = []
    ∧ provVentana1dInvalida.historyPeriod "GGAL.BA" "5d"
        = Except.ok [filaBuena 2 100]
    ∧ (convert_yf_history_to_cotizaciones [filaBuena 2 100] "GGAL").length
        = 1 :=
  ⟨by decide, by decide, by decide, by decide, by decide⟩

/-- C1 as amended: fetchLatest tries the 1-day, 5-day and 1-month windows
in order, stopping at the first whose raw frame is structurally
non-empty; it then returns position 0 of that window's normalized
sequence (absent when nothing survives normalization), and returns absent
when all three windows are raw-empty or when any provider call throws. -/
theorem ultimaCotizacionEscalaVentanasCrudas :
    ∀ (p : Provider) (s : String),
      (∀ e, p.historyPeriod (get_yahoo_symbol s) "1d" = Except.error e →
        obtener_ultima_cotizacion p s = none)
      ∧ (∀ df1, p.historyPeriod (get_yahoo_symbol s) "1d" = Except.ok df1 →
          df1 ≠ [] →
          obtener_ultima_cotizacion p s
            = (convert_yf_history_to_cotizaciones df1 s).head?)
      ∧ (∀ e, p.historyPeriod (get_yahoo_symbol s) "1d" = Except.ok [] →
          p.historyPeriod (get_yahoo_symbol s) "5d" = Except.error e →
          obtener_ultima_cotizacion p s = none)
      ∧ (∀ df5, p.historyPeriod (get_yahoo_symbol s) "1d" = Except.ok [] →
          p.historyPeriod (get_yahoo_symbol s) "5d" = Except.ok df5 →
          df5 ≠ [] →
          obtener_ultima_cotizacion p s
            = (convert_yf_history_to_cotizaciones df5 s).head?)
      ∧ (∀ e, p.historyPeriod (get_yahoo_symbol s) "1d" = Except.ok [] →
          p.historyPeriod (get_yahoo_symbol s) "5d" = Except.ok [] →
          p.historyPeriod (get_yahoo_symbol s) "1mo" = Except.error e →
          obtener_ultima_cotizacion p s = none)
      ∧ (∀ dfm, p.historyPeriod (get_yahoo_symbol s) "1d" = Except.ok [] →
          p.historyPeriod (get_yahoo_symbol s) "5d" = Except.ok [] →
          p.historyPeriod (get_yahoo_symbol s) "1mo" = Except.ok dfm →
          obtener_ultima_cotizacion p s
            = if dfm.isEmpty then none
              else (convert_yf_history_to_cotizaciones dfm s).head?) := by
  intro p s
  refine ⟨?_, ?_, ?_, ?_, ?_, ?_⟩
  · intro e hx
    simp only [obtener_ultima_cotizacion, simboloOverride_eq]
    rw [hx]
    rfl
  · intro df1 hx hne
    simp only [obtener_ultima_cotizacion, simboloOverride_eq]
    rw [hx]
    simp [Bind.bind, Except.bind, Pure.pure, Except.pure, hne]
  · intro e h1 h5
    simp only [obtener_ultima_cotizacion, simboloOverride_eq]
    rw [h1]
    simp [Bind.bind, Except.bind, Pure.pure, Except.pure, h5]
  · intro df5 h1 h5 hne
    simp only [obtener_ultima_cotizacion, simboloOverride_eq]
    rw [h1]
    simp [Bind.bind, Except.bind, Pure.pure, Except.pure, h5, hne]
  · intro e h1 h5 hm
    simp only [obtener_ultima_cotizacion, simboloOverride_eq]
    rw [h1]
    simp [Bind.bind, Except.bind, Pure.pure, Except.pure, h5, hm]
  · intro dfm h1 h5 hm
    simp only [obtener_ultima_cotizacion, simboloOverride_eq]
    rw [h1]
    simp [Bind.bind, Except.bind, Pure.pure, Except.pure, h5, hm]

/-- Witness for amended C1: with a raw-empty 1-day window and one good
5-day bar, fetchLatest returns the head of the normalized 5-day frame. -/
theorem ultimaCotizacionEscalaVentanasCrudas_witness :
    obtener_ultima_cotizacion provVentana5d "GGAL"
      = (convert_yf_history_to_cotizaciones [filaBuena 2 100] "GGAL").head? :=
  ((ultimaCotizacionEscalaVentanasCrudas provVentana5d "GGAL").2.2.2.1)
    [filaBuena 2 100] (by decide) (by decide) (by decide)

/-- C9: when obtener_activo succeeds for the benchmark symbol MERVAL
(resolved to ^MERV), the instrument is classified as BONO with market
NYSE and currency USD by the caret/no-dot inference rule. -/
theorem mervalClasificadoComoBono :
    ∀ (p : Provider) (cache : List (String × ActivoFinanciero))
      (a : ActivoFinanciero) (cache2 : List (String × ActivoFinanciero)),
      cache.lookup "MERVAL" = none →
      obtener_activo p cache "MERVAL" = (some a, cache2) →
      a.tipo = TipoActivo.BONO ∧ a.mercado = Mercado.NYSE
        ∧ a.moneda = Moneda.USD ∧ a.simbolo_yahoo = some "^MERV" := by
  intro p cache a cache2 hc h
  have hsy : get_yahoo_symbol "MERVAL" = "^MERV" := by decide
  have hba : endsWithStr "^MERV" ".BA" = false := by decide
  have hdot : ("^MERV".toList.contains '.') = false := by decide
  simp only [obtener_activo, hc, hsy, hba, hdot] at h
  rcases hi : p.infoFor "^MERV" with e | info
  · rw [hi] at h
    rcases hh : p.historyPeriod "^MERV" "1d" with e2 | df
    · rw [hh] at h; simp at h
    · rw [hh] at h
      rcases df with _ | ⟨r, t⟩
      · simp at h
      · simp at h
        rw [← h.1]
        exact ⟨rfl, rfl, rfl, rfl⟩
  · rw [hi] at h
    by_cases hinfo : info.isEmpty
    · simp [hinfo] at h
      rcases hh : p.historyPeriod "^MERV" "1d" with e2 | df
      · rw [hh] at h; simp at h
      · rw [hh] at h
        rcases df with _ | ⟨r, t⟩
        · simp at h
        · simp at h
          rw [← h.1]
          exact ⟨rfl, rfl, rfl, rfl⟩
    · simp [hinfo] at h
      rw [← h.1]
      exact ⟨rfl, rfl, rfl, rfl⟩

/-- Witness for C9: a provider with metadata for ^MERV yields exactly the
BONO/NYSE/USD instrument. -/
theorem mervalClasificadoComoBono_witness :
    activoMerval.tipo = TipoActivo.BONO
    ∧ activoMerval.mercado = Mercado.NYSE
    ∧ activoMerval.moneda = Moneda.USD
    ∧ activoMerval.simbolo_yahoo = some "^MERV" :=
  mervalClasificadoComoBono provActivoMerval [] activoMerval
    [("MERVAL", activoMerval)] (by decide) (by decide)

/-- String containment holds whenever the haystack splits around the
needle. -/
theorem containsStr_parts (s a b h : String)
    (heq : h.toList = a.toList ++ s.toList ++ b.toList) :
    containsStr s h = true := by
  unfold containsStr
  rw [decide_eq_true_eq, heq]
  exact List.infix_append a.toList s.toList b.toList

/-- Counterexample to C4 as stated: the provider-throw failure and the
normalization failure share error code DATA_003 (so the three failure
modes do not map to three distinct kinds), and the provider-throw message
carries only the resolved provider symbol — for MERVAL it does not
contain the domain symbol. -/
theorem historicoErroresNoDistinguidos :
    (obtener_historico provTodoFalla { simbolo := "MERVAL" }).codigo_error
        = some CodigoError.DATA_003
    ∧ (obtener_historico provFilasInvalidas { simbolo := "MERVAL" }).codigo_error
        = some CodigoError.DATA_003
    ∧ (obtener_historico provTodoFalla { simbolo := "MERVAL" }).mensaje.isSome
        = true
    ∧ containsStr "MERVAL"
        ((obtener_historico provTodoFalla { simbolo := "MERVAL" }).mensaje.getD "")
      = false :=
  ⟨by decide, by decide, by decide, by decide⟩

/-- C4 as amended: the three failure modes map to error results as
follows — a provider throw gives code DATA_003 with a message carrying
the resolved provider symbol (the domain symbol is not inserted); an
empty raw series gives code DATA_002 with a message carrying both
symbols; rows that all fail normalization give code DATA_003 (the same
code as a provider throw) with a message carrying both symbols. -/
theorem historicoTaxonomiaErrores :
    ∀ (p : Provider) (sol : SolicitudHistorico),
      (∀ e, p.historyRange (get_yahoo_symbol sol.simbolo)
          (sol.desde.getD (p.now - 365)) (sol.hasta.getD p.now)
          sol.intervalo sol.ajustado = Except.error e →
        (obtener_historico p sol).estado = EstadoRespuesta.ERROR
        ∧ (obtener_historico p sol).codigo_error = some CodigoError.DATA_003
        ∧ containsStr (get_yahoo_symbol sol.simbolo)
            ((obtener_historico p sol).mensaje.getD "") = true)
      ∧ (p.historyRange (get_yahoo_symbol sol.simbolo)
          (sol.desde.getD (p.now - 365)) (sol.hasta.getD p.now)
          sol.intervalo sol.ajustado = Except.ok [] →
        (obtener_historico p sol).estado = EstadoRespuesta.ERROR
        ∧ (obtener_historico p sol).codigo_error = some CodigoError.DATA_002
        ∧ containsStr sol.simbolo
            ((obtener_historico p sol).mensaje.getD "") = true
        ∧ containsStr (get_yahoo_symbol sol.simbolo)
            ((obtener_historico p sol).mensaje.getD "") = true)
      ∧ (∀ df, p.historyRange (get_yahoo_symbol sol.simbolo)
          (sol.desde.getD (p.now - 365)) (sol.hasta.getD p.now)
          sol.intervalo sol.ajustado = Except.ok df → df ≠ [] →
          convert_yf_history_to_cotizaciones df sol.simbolo = [] →
        (obtener_historico p sol).estado = EstadoRespuesta.ERROR
        ∧ (obtener_historico p sol).codigo_error = some CodigoError.DATA_003
        ∧ containsStr sol.simbolo
            ((obtener_historico p sol).mensaje.getD "") = true
        ∧ containsStr (get_yahoo_symbol sol.simbolo)
            ((obtener_historico p sol).mensaje.getD "") = true) := by
  intro p sol
  refine ⟨?_, ?_, ?_⟩
  · intro e hx
    simp only [obtener_historico]
    rw [hx]
    refine ⟨rfl, rfl, ?_⟩
    exact containsStr_parts _
      "Error al obtener datos de Yahoo Finance para el símbolo "
      (": " ++ e) _ (by simp [String.toList])
  · intro hx
    simp only [obtener_historico]
    rw [hx]
    refine ⟨rfl, rfl, ?_, ?_⟩
    · exact containsStr_parts _ "No se encontraron datos para el símbolo "
        (" (" ++ get_yahoo_symbol sol.simbolo ++ ") en el período solicitado")
        _ (by simp [String.toList])
    · exact containsStr_parts _
        ("No se encontraron datos para el símbolo " ++ sol.simbolo ++ " (")
        (") en el período solicitado") _ (by simp [String.toList])
  · intro df hx hne hconv
    simp only [obtener_historico]
    rw [hx]
    have hemp : df.isEmpty = false := by
      cases df with
      | nil => exact absurd rfl hne
      | cons a t => rfl
    simp only [hemp, Bool.false_eq_true, if_false, hconv]
    refine ⟨trivial, trivial, ?_, ?_⟩
    · exact containsStr_parts _ "Los datos obtenidos para "
        (" (" ++ get_yahoo_symbol sol.simbolo ++ ") no pudieron ser procesados")
        _ (by simp [String.toList])
    · exact containsStr_parts _
        ("Los datos obtenidos para " ++ sol.simbolo ++ " (")
        (") no pudieron ser procesados") _ (by simp [String.toList])

/-- Witness for amended C4: the empty-series failure for MERVAL carries
code DATA_002 and a message containing both MERVAL and ^MERV. -/
theorem historicoTaxonomiaErrores_witness :
    (obtener_historico provCorrConstante { simbolo := "MERVAL" }).estado
        = EstadoRespuesta.ERROR
    ∧ (obtener_historico provCorrConstante { simbolo := "MERVAL" }).codigo_error
        = some CodigoError.DATA_002
    ∧ containsStr "MERVAL"
        ((obtener_historico provCorrConstante
          { simbolo := "MERVAL" }).mensaje.getD "") = true
    ∧ containsStr (get_yahoo_symbol "MERVAL")
        ((obtener_historico provCorrConstante
          { simbolo := "MERVAL" }).mensaje.getD "") = true := by
  have h := (historicoTaxonomiaErrores provCorrConstante
    { simbolo := "MERVAL" }).2.1 (by decide)
  exact ⟨h.1, h.2.1, h.2.2.1, h.2.2.2⟩

/-- Counterexample to C2 as stated: on a single-bar series the code
returns 0.0 for total and annualized return but NaN for volatility —
pandas std over the empty effective change sequence is NaN, not 0.0. -/
theorem rendimientoVolatilidadNaN :
    calcular_rendimiento (some [filaDF1]) = (0, 0, none)
    ∧ (none : Option ℝ) ≠ some 0 := by
  constructor
  · simp [calcular_rendimiento, filaDF1, pctChangesDropna, stdSample]
  · simp

/-- C2 as amended: all three statistics are 0.0 on an empty series (and
on an absent frame), while on a single-bar series with a non-zero close
the total and annualized returns are 0.0 but the volatility is NaN,
because the day-over-day change sequence has no defined entries and the
sample standard deviation of fewer than two observations is NaN. -/
theorem rendimientoSerieDegenerada :
    ∀ (f : FilaDF), f.cierre ≠ 0 →
      calcular_rendimiento none = (0, 0, some 0)
      ∧ calcular_rendimiento (some []) = (0, 0, some 0)
      ∧ calcular_rendimiento (some [f]) = (0, 0, none) := by
  intro f hf
  refine ⟨rfl, rfl, ?_⟩
  simp [calcular_rendimiento, pctChangesDropna, stdSample]

/-- Witness for amended C2: the single-bar behavior at a concrete bar
with close 100. -/
theorem rendimientoSerieDegenerada_witness :
    filaDF1.cierre ≠ 0
    ∧ calcular_rendimiento (some []) = (0, 0, some 0)
    ∧ calcular_rendimiento (some [filaDF1]) = (0, 0, none) :=
  ⟨by decide, (rendimientoSerieDegenerada filaDF1 (by decide)).2.1,
    (rendimientoSerieDegenerada filaDF1 (by decide)).2.2⟩

/-- C6: calcular_beta aligns the two fetched series on the intersection
of their timestamps (the common-dates list holds exactly the timestamps
present in both frames), returns absent when fewer than 30 aligned dates
exist or when the benchmark return variance is exactly zero, and
otherwise returns the sample covariance of the aligned daily returns over
the benchmark sample variance. -/
theorem betaAlineacionYUmbral :
    ∀ (p : Provider) (simbolo indice : String) (desde hasta : Option Int)
      (dfA dfI : List FilaDF),
      obtener_dataframe_historico p simbolo (desde.getD (p.now - 365))
          (some (hasta.getD p.now)) = some dfA →
      obtener_dataframe_historico p indice (desde.getD (p.now - 365))
          (some (hasta.getD p.now)) = some dfI →
      (∀ f, f ∈ fechasComunes dfA dfI ↔
          f ∈ dfA.map FilaDF.fecha ∧ f ∈ dfI.map FilaDF.fecha)
      ∧ calcular_beta p simbolo indice desde hasta =
          (if (fechasComunes dfA dfI).length < 30 then none
           else if sampleVar (pctChangesDropna
              (cierresAlineados dfI (fechasComunes dfA dfI))) = 0 then none
           else some (sampleCov
              (pctChangesDropna (cierresAlineados dfA (fechasComunes dfA dfI)))
              (pctChangesDropna (cierresAlineados dfI (fechasComunes dfA dfI)))
            / sampleVar (pctChangesDropna
              (cierresAlineados dfI (fechasComunes dfA dfI))))) := by
  intro p simbolo indice desde hasta dfA dfI hA hI
  constructor
  · intro f
    simp [fechasComunes, List.mem_filter, List.elem_iff, List.contains]
  · simp only [calcular_beta]
    rw [hA, hI]
    rfl

/-- Witness for C6: two well-formed series overlapping on only two dates
give an absent beta. -/
theorem betaAlineacionYUmbral_witness :
    calcular_beta provBetaCorto "GGAL" "MERVAL" none none = none := by
  have h := (betaAlineacionYUmbral provBetaCorto "GGAL" "MERVAL" none none
    dfBetaGGAL dfBetaMERV (by decide) (by decide)).2
  rw [h]
  decide

/-- Centered dot product is symmetric in its two columns. -/
theorem centeredDot_comm (x y : List ℚ) : centeredDot x y = centeredDot y x := by
  unfold centeredDot
  have h : ∀ (u v : List ℚ) (mu mv : ℚ),
      List.zipWith (fun a b => (a - mu) * (b - mv)) u v
        = List.zipWith (fun a b => (a - mv) * (b - mu)) v u := by
    intro u v mu mv
    induction u generalizing v with
    | nil => cases v <;> rfl
    | cons a t ih =>
      cases v with
      | nil => rfl
      | cons b tv => simp [List.zipWith, ih, mul_comm]
  rw [h x y (mean x) (mean y)]

/-- Centered sum of squares of a column is non-negative. -/
theorem centeredDot_self_nonneg (x : List ℚ) : 0 ≤ centeredDot x x := by
  unfold centeredDot
  rw [List.zipWith_same]
  apply List.sum_nonneg
  intro a ha
  rcases List.mem_map.mp ha with ⟨b, _, hb⟩
  rw [← hb]
  exact mul_self_nonneg _

/-- Pearson correlation entries are symmetric. -/
theorem corrEntry_comm (x y : List ℚ) : corrEntry x y = corrEntry y x := by
  unfold corrEntry
  by_cases h : centeredDot x x = 0 ∨ centeredDot y y = 0
  · rw [if_pos h, if_pos (Or.symm h)]
  · rw [if_neg h, if_neg (fun hc => h (Or.symm hc))]
    rw [centeredDot_comm x y,
      mul_comm ((centeredDot x x : ℚ) : ℝ) ((centeredDot y y : ℚ) : ℝ)]

/-- Pearson correlation of a column with itself is 1 whenever its
centered sum of squares is non-zero. -/
theorem corrEntry_self (x : List ℚ) (hx : centeredDot x x ≠ 0) :
    corrEntry x x = some 1 := by
  unfold corrEntry
  rw [if_neg (by simp [hx])]
  have hnn : (0 : ℚ) ≤ centeredDot x x := centeredDot_self_nonneg x
  have hpos : (0 : ℝ) < ((centeredDot x x : ℚ) : ℝ) := by
    have h : (0 : ℚ) < centeredDot x x := lt_of_le_of_ne hnn (Ne.symm hx)
    exact_mod_cast h
  rw [Real.sqrt_mul_self (le_of_lt hpos), div_self (ne_of_gt hpos)]

/-- Counterexample to C7 as stated: a symbol contributing three data
points (hence at least 2) whose closes are constant yields a diagonal
entry of NaN, not 1.0, because its aligned return column is constant. -/
theorem matrizDiagonalNaN :
    calcular_matriz_correlacion provCorrConstante ["A"] 0 (some 10)
        = some { columnas := [("A", [0, 0])] }
    ∧ (obtener_dataframe_historico provCorrConstante "A" 0 (some 10)).map
        List.length = some 3
    ∧ MatrizCorrelacion.entrada { columnas := [("A", [0, 0])] } "A" "A"
        = none := by
  refine ⟨by with_unfolding_all rfl, by decide, ?_⟩
  have h0 : centeredDot ([0, 0] : List ℚ) [0, 0] = 0 := by
    with_unfolding_all rfl
  have hl : ((([("A", ([0, 0] : List ℚ))]).lookup "A").getD []) = [0, 0] := by
    decide
  unfold MatrizCorrelacion.entrada
  simp only [hl]
  unfold corrEntry
  rw [if_pos (Or.inl h0)]

/-- C7 as amended: the correlation operation is absent exactly when no
symbol produced any data; on success the matrix is symmetric in every
pair of symbols, and the diagonal entry is 1.0 for every symbol whose
aligned return column has non-zero centered sum of squares (for a
constant column, or one with fewer than two surviving observations, the
diagonal is NaN instead). -/
theorem matrizCorrelacionForma :
    ∀ (p : Provider) (simbolos : List String) (desde : Int)
      (hasta : Option Int),
      (calcular_matriz_correlacion p simbolos desde hasta = none ↔
        ∀ s ∈ simbolos, obtener_dataframe_historico p s desde hasta = none)
      ∧ ∀ m, calcular_matriz_correlacion p simbolos desde hasta = some m →
          (∀ s t, m.entrada s t = m.entrada t s)
          ∧ (∀ s col, m.columnas.lookup s = some col →
              centeredDot col col ≠ 0 → m.entrada s s = some 1) := by
  intro p simbolos desde hasta
  constructor
  · cases hcol : simbolos.filterMap (fun s =>
      (obtener_dataframe_historico p s desde hasta).map (fun df => (s, df))) with
    | nil =>
      constructor
      · intro _ s hs
        have h := List.filterMap_eq_nil_iff.mp hcol s hs
        exact Option.map_eq_none'.mp h
      · intro _
        simp [calcular_matriz_correlacion, hcol]
    | cons sd resto =>
      constructor
      · intro h
        exfalso
        simp [calcular_matriz_correlacion, hcol] at h
      · intro h
        exfalso
        have h2 : simbolos.filterMap (fun s =>
            (obtener_dataframe_historico p s desde hasta).map
              (fun df => (s, df))) = [] := by
          rw [List.filterMap_eq_nil_iff]
          intro s hs
          rw [Option.map_eq_none']
          exact h s hs
        rw [hcol] at h2
        cases h2
  · intro m hm
    constructor
    · intro s t
      unfold MatrizCorrelacion.entrada
      exact corrEntry_comm _ _
    · intro s col hlook hne
      unfold MatrizCorrelacion.entrada
      rw [hlook]
      exact corrEntry_self col hne

/-- Witness for amended C7: a single symbol with non-constant returns
yields a matrix whose diagonal entry for it is exactly 1. -/
theorem matrizCorrelacionForma_witness :
    calcular_matriz_correlacion provCorrVariable ["A"] 0 (some 10)
        = some mCorrVariable
    ∧ mCorrVariable.entrada "A" "A" = some 1 :=
  ⟨by with_unfolding_all rfl,
    ((matrizCorrelacionForma provCorrVariable ["A"] 0 (some 10)).2
      mCorrVariable (by with_unfolding_all rfl)).2 "A" [1/10, 1/5]
      (by with_unfolding_all rfl)
      (of_decide_eq_true (by with_unfolding_all rfl))⟩

end MercadoMCP
